import Mathlib

/-!
# Shallow embedding of `src/main.cpp` (GLFW / OpenGL triangle set-up)

`main.cpp` is a straight-line sequence of calls into GLFW, GLAD and OpenGL
followed by one `while` loop.  Its behaviour is the sequence of library calls
it issues, the text it writes to `std::cout`, and its return value, all as a
function of what the libraries answer.  The embedding therefore

* records every library call as a constructor of `Call` (same names and
  argument order as the source);
* collects the answers of the libraries in a `Driver` record (window pointer,
  object handles, compile / link status and info log per handle, and one
  `Frame` of answers per loop iteration);
* represents `main` as a pure function `main : Driver → Run`.

The `while` loop need not terminate.  The list `Driver.frames` is the finite
part of the run that is observed: when it is used up while the close flag is
still false the run is reported with status `Status.running`.

Float literals (`0.2f`, `-0.5f`, ...) are recorded by their decimal value as
rational numbers; no floating-point arithmetic is performed by the program.

Line 144 of the source spells the link-status query `glGetProramriv`; the
embedding keeps that spelling and gives it the meaning of the link-status
query it is written as (`GL_LINK_STATUS` into `success`).
-/

namespace OpenGL

/-! ## Library vocabulary -/

/-- Symbolic constants of the GLFW / OpenGL headers that `main.cpp` uses.  The
headers are not part of the repository, so the constants are kept symbolic. -/
inductive Sym where
  | GLFW_CONTEXT_VERSION_MAJOR
  | GLFW_CONTEXT_VERSION_MINOR
  | GLFW_OPENGL_PROFILE
  | GLFW_OPENGL_CORE_PROFILE
  | GLFW_KEY_ESCAPE
  | GL_ARRAY_BUFFER
  | GL_STATIC_DRAW
  | GL_VERTEX_SHADER
  | GL_FRAGMENT_SHADER
  | GL_COMPILE_STATUS
  | GL_LINK_STATUS
  | GL_COLOR_BUFFER_BIT
  deriving DecidableEq, Repr

/-- Second argument of `glfwWindowHint`: an integer literal or a header
constant. -/
inductive HintValue where
  | int (n : Int)
  | sym (s : Sym)
  deriving DecidableEq, Repr

/-- One call into GLFW, GLAD or OpenGL, with the arguments the source passes.
Output pointers (`&VBO`, `&success`, `infoLog`) are not recorded: what the
library stores through them is given by `Driver`.  `glDeleteShader` is part of
the vocabulary although `main.cpp` never calls it, so that statements about
releasing shader objects can be written. -/
inductive Call where
  | glfwInit
  | glfwWindowHint (hint : Sym) (value : HintValue)
  | glfwCreateWindow (width height : Nat) (title : String)
  | glfwTerminate
  | glfwMakeContextCurrent (window : Nat)
  | gladLoadGL
  | glViewport (x y : Int) (width height : Nat)
  | glGenBuffers (n : Nat)
  | glBindBuffer (target : Sym) (buffer : Nat)
  | glBufferData (target : Sym) (size : Nat) (data : List ℚ) (usage : Sym)
  | glCreateShader (type : Sym)
  | glShaderSource (shader : Nat) (count : Nat) (source : String)
  | glCompileShader (shader : Nat)
  | glGetShaderiv (shader : Nat) (pname : Sym)
  | glGetShaderInfoLog (shader : Nat) (maxLength : Nat)
  | glDeleteShader (shader : Nat)
  | glCreateProgram
  | glAttachShader (program shader : Nat)
  | glLinkProgram (program : Nat)
  | glGetProramriv (program : Nat) (pname : Sym)
  | glGetProgramInfoLog (program : Nat) (maxLength : Nat)
  | glfwWindowShouldClose (window : Nat)
  | glfwGetKey (window : Nat) (key : Sym)
  | glfwSetWindowShouldClose (window : Nat) (value : Bool)
  | glClearColor (red green blue alpha : ℚ)
  | glClear (mask : Sym)
  | glfwSwapBuffers (window : Nat)
  | glfwPollEvents
  | glfwDestroyWindow (window : Nat)
  deriving DecidableEq

/-! ## Answers of the libraries -/

/-- What the window provider answers during one iteration of the loop. -/
structure Frame where
  /-- Whether `glfwGetKey(window, GLFW_KEY_ESCAPE) == GLFW_PRESS` holds in
  `processInput`. -/
  escapePressed : Bool
  /-- Whether `glfwPollEvents` delivers a close request of the operating
  system, which sets the close flag of the window. -/
  closeEvent : Bool
  deriving DecidableEq, Repr

/-- Everything the libraries answer during one run. -/
structure Driver where
  /-- Result of `glfwCreateWindow`; `none` is `NULL`. -/
  window : Option Nat
  /-- Name stored in `VBO` by `glGenBuffers`. -/
  VBO : Nat
  /-- Result of `glCreateShader(GL_VERTEX_SHADER)`. -/
  vertexShader : Nat
  /-- Result of `glCreateShader(GL_FRAGMENT_SHADER)`. -/
  fragmentShader : Nat
  /-- Result of `glCreateProgram`. -/
  shaderProgram : Nat
  /-- Value of `GL_COMPILE_STATUS` of the shader object with the given name
  (`true` is success). -/
  compileStatus : Nat → Bool
  /-- Complete info log of the shader object with the given name. -/
  shaderInfoLog : Nat → String
  /-- Value of `GL_LINK_STATUS` of the program object with the given name. -/
  linkStatus : Nat → Bool
  /-- Complete info log of the program object with the given name. -/
  programInfoLog : Nat → String
  /-- Close flag of the window at the first evaluation of the loop
  condition. -/
  shouldClose : Bool
  /-- Answers for the successive loop iterations. -/
  frames : List Frame

/-- Text that `glGetShaderInfoLog(shader, maxLength, NULL, infoLog)` leaves in
`infoLog`: at most `maxLength - 1` characters of the log of that shader object
(the last place of the buffer holds the terminating NUL). -/
def glGetShaderInfoLog (d : Driver) (shader maxLength : Nat) : String :=
  ⟨(d.shaderInfoLog shader).data.take (maxLength - 1)⟩

/-- Text that `glGetProgramInfoLog(program, maxLength, NULL, infoLog)` leaves
in `infoLog`. -/
def glGetProgramInfoLog (d : Driver) (program maxLength : Nat) : String :=
  ⟨(d.programInfoLog program).data.take (maxLength - 1)⟩

/-- Content, read as a C string, of a character buffer after a library call
has stored the NUL-terminated `text` at its start: the earlier content is no
longer visible. -/
def writeBuffer (_buffer : String) (text : String) : String :=
  text

/-! ## Results of a run -/

/-- One statement `std::cout << label << text << std::endl;`.  For the
statement of line 49, which inserts one literal only, `text` is empty. -/
structure Print where
  label : String
  text : String
  deriving DecidableEq, Repr

/-- Characters a `Print` statement puts on the stream. -/
def Print.render (p : Print) : String :=
  p.label ++ p.text ++ "\n"

/-- How far the run got. -/
inductive Status where
  /-- The observed frames are used up and the loop has not been left. -/
  | running
  /-- The function `main` returned the given value. -/
  | exited (code : Int)
  deriving DecidableEq, Repr

/-- Observable result of a run of `main`. -/
structure Run where
  status : Status
  trace : List Call
  out : List Print

/-! ## Constants of the source -/

/-- Lines 6-11.  The literal ends in an explicit NUL, which ends the C string
one character early; the text up to it is what `glShaderSource` receives. -/
def vertexShaderSource : String :=
  "#version 330 core\n" ++
  "layout (location = 0) in vec3 aPos;\n" ++
  "void main()\n" ++
  "\x7b\n" ++
  "   gl_Position = vec4(aPos.x, aPos.y, aPos.z, 1.0);\n" ++
  "\x7d"

/-- Lines 13-18. -/
def fragmentShaderSource : String :=
  "#version 330 core\n" ++
  "out vec4 FragColor;\n" ++
  "void main()\n" ++
  "\x7b\n" ++
  "FragColor = vec4(1.0f, 0.5f, 0.2f, 1.0f);\n" ++
  "\x7d \n"

/-- Lines 66-70: `float vertices[]`. -/
def vertices : List ℚ :=
  [-0.5, -0.5, 0.0,
    0.5, -0.5, 0.0,
    0.0,  0.5, 0.0]

/-- Size of a `float` in bytes, as `sizeof` counts it. -/
def sizeofFloat : Nat := 4

/-- The operator `sizeof` applied to an array of `float`. -/
def sizeofFloats (a : List ℚ) : Nat :=
  a.length * sizeofFloat

/-- Label written by line 116 and, with the same text, by line 125. -/
def vertexCompileLabel : String :=
  "ERROR::SHADER::VERTEX::COMPILATION_FAILED\n"

/-- Label written by line 148. -/
def linkLabel : String :=
  "ERROR::SHADER::PROGRAM::LINKING_FAILED\n"

/-- Literal written by line 49. -/
def windowFailedMessage : String :=
  "Failed to create GLFW window"

/-! ## The program -/

/-- Lines 20-24, `processInput`.  Takes the close flag of the window and
returns the flag after the function together with the calls issued. -/
def processInput (window : Nat) (shouldClose : Bool) (f : Frame) :
    Bool × List Call :=
  if f.escapePressed then
    (true, [Call.glfwGetKey window Sym.GLFW_KEY_ESCAPE,
            Call.glfwSetWindowShouldClose window true])
  else
    (shouldClose, [Call.glfwGetKey window Sym.GLFW_KEY_ESCAPE])

/-- Lines 160-168, the body of the `while` loop.  `glfwPollEvents` sets the
close flag when the frame carries a close request and never clears it. -/
def loopBody (window : Nat) (shouldClose : Bool) (f : Frame) :
    Bool × List Call :=
  let r := processInput window shouldClose f
  (r.1 || f.closeEvent,
   r.2 ++ [Call.glClearColor 0.2 0.3 0.3 1.0,
           Call.glClear Sym.GL_COLOR_BUFFER_BIT,
           Call.glfwSwapBuffers window,
           Call.glfwPollEvents])

/-- Lines 158-169, the `while` loop.  The first component tells whether the
loop was left (the condition `!glfwWindowShouldClose(window)` was false); it is
`false` when the frames are used up first. -/
def renderLoop (window : Nat) : Bool → List Frame → Bool × List Call
  | true, _ => (true, [Call.glfwWindowShouldClose window])
  | false, [] => (false, [Call.glfwWindowShouldClose window])
  | false, f :: fs =>
    let b := loopBody window false f
    let r := renderLoop window b.1 fs
    (r.1, Call.glfwWindowShouldClose window :: (b.2 ++ r.2))

/-- Lines 30-45: initialisation, hints and window creation. -/
def initCalls : List Call :=
  [Call.glfwInit,
   Call.glfwWindowHint Sym.GLFW_CONTEXT_VERSION_MAJOR (HintValue.int 3),
   Call.glfwWindowHint Sym.GLFW_CONTEXT_VERSION_MINOR (HintValue.int 3),
   Call.glfwWindowHint Sym.GLFW_OPENGL_PROFILE
     (HintValue.sym Sym.GLFW_OPENGL_CORE_PROFILE),
   Call.glfwCreateWindow 800 800 "YoutubeOpenGL"]

/-- Lines 54-104: context, loader, viewport, vertex buffer, creation and
compilation of the two shader objects. -/
def setupCalls (d : Driver) (window : Nat) : List Call :=
  [Call.glfwMakeContextCurrent window,
   Call.gladLoadGL,
   Call.glViewport 0 0 800 800,
   Call.glGenBuffers 1,
   Call.glBindBuffer Sym.GL_ARRAY_BUFFER d.VBO,
   Call.glBufferData Sym.GL_ARRAY_BUFFER (sizeofFloats vertices) vertices
     Sym.GL_STATIC_DRAW,
   Call.glCreateShader Sym.GL_VERTEX_SHADER,
   Call.glShaderSource d.vertexShader 1 vertexShaderSource,
   Call.glCompileShader d.vertexShader,
   Call.glCreateShader Sym.GL_FRAGMENT_SHADER,
   Call.glShaderSource d.fragmentShader 1 fragmentShaderSource,
   Call.glCompileShader d.fragmentShader]

/-- Lines 110-117: check of the compile status of the vertex shader.  The
buffer `infoLog` is written twice before it is printed, first with the log of
the vertex shader (line 114), then with the log of the fragment shader
(line 115).  Returns the calls issued and what is printed. -/
def vertexCompileCheck (d : Driver) : List Call × List Print :=
  let success := d.compileStatus d.vertexShader
  if !success then
    let infoLog := glGetShaderInfoLog d d.vertexShader 512
    let infoLog := writeBuffer infoLog (glGetShaderInfoLog d d.fragmentShader 512)
    ([Call.glGetShaderiv d.vertexShader Sym.GL_COMPILE_STATUS,
      Call.glGetShaderInfoLog d.vertexShader 512,
      Call.glGetShaderInfoLog d.fragmentShader 512],
     [⟨vertexCompileLabel, infoLog⟩])
  else
    ([Call.glGetShaderiv d.vertexShader Sym.GL_COMPILE_STATUS], [])

/-- Lines 120-126: check of the compile status of the fragment shader.  The
block repeats lines 114-116 unchanged: the same two fetches into `infoLog`
(lines 123-124) and the same label (line 125). -/
def fragmentCompileCheck (d : Driver) : List Call × List Print :=
  let success := d.compileStatus d.fragmentShader
  if !success then
    let infoLog := glGetShaderInfoLog d d.vertexShader 512
    let infoLog := writeBuffer infoLog (glGetShaderInfoLog d d.fragmentShader 512)
    ([Call.glGetShaderiv d.fragmentShader Sym.GL_COMPILE_STATUS,
      Call.glGetShaderInfoLog d.vertexShader 512,
      Call.glGetShaderInfoLog d.fragmentShader 512],
     [⟨vertexCompileLabel, infoLog⟩])
  else
    ([Call.glGetShaderiv d.fragmentShader Sym.GL_COMPILE_STATUS], [])

/-- Lines 136-149: creation of the program object, attachment, linking and the
check of the link status. -/
def linkStep (d : Driver) : List Call × List Print :=
  let calls :=
    [Call.glCreateProgram,
     Call.glAttachShader d.shaderProgram d.vertexShader,
     Call.glAttachShader d.shaderProgram d.fragmentShader,
     Call.glLinkProgram d.shaderProgram,
     Call.glGetProramriv d.shaderProgram Sym.GL_LINK_STATUS]
  let success := d.linkStatus d.shaderProgram
  if !success then
    let infoLog := glGetProgramInfoLog d d.shaderProgram 512
    (calls ++ [Call.glGetProgramInfoLog d.shaderProgram 512],
     [⟨linkLabel, infoLog⟩])
  else
    (calls, [])

/-- Calls of lines 30-149 when the window was created: everything before the
loop. -/
def pipelineCalls (d : Driver) (window : Nat) : List Call :=
  initCalls ++ setupCalls d window ++ (vertexCompileCheck d).1 ++
    (fragmentCompileCheck d).1 ++ (linkStep d).1

/-- Output of lines 30-149 when the window was created. -/
def pipelineOut (d : Driver) : List Print :=
  (vertexCompileCheck d).2 ++ (fragmentCompileCheck d).2 ++
    (linkStep d).2

/-- Lines 27-178, `main`. -/
def main (d : Driver) : Run :=
  match d.window with
  | none =>
    ⟨Status.exited (-1), initCalls ++ [Call.glfwTerminate],
     [⟨windowFailedMessage, ""⟩]⟩
  | some window =>
    let loop := renderLoop window d.shouldClose d.frames
    if loop.1 then
      ⟨Status.exited 0,
       pipelineCalls d window ++ loop.2 ++
         [Call.glfwDestroyWindow window, Call.glfwTerminate],
       pipelineOut d⟩
    else
      ⟨Status.running, pipelineCalls d window ++ loop.2, pipelineOut d⟩

/-! ## Vocabulary of the statements -/

/-- Calls that clear a buffer (`glClear`). -/
def Call.isClear : Call → Bool
  | Call.glClear _ => true
  | _ => false

/-- Calls that present a frame (`glfwSwapBuffers`). -/
def Call.isSwap : Call → Bool
  | Call.glfwSwapBuffers _ => true
  | _ => false

/-- Calls that generate buffer names (`glGenBuffers`). -/
def Call.isGenBuffers : Call → Bool
  | Call.glGenBuffers _ => true
  | _ => false

/-- Calls that write the data store of a buffer (`glBufferData`). -/
def Call.isBufferData : Call → Bool
  | Call.glBufferData _ _ _ _ => true
  | _ => false

/-- Calls that create a program object (`glCreateProgram`). -/
def Call.isCreateProgram : Call → Bool
  | Call.glCreateProgram => true
  | _ => false

/-- Calls that release a shader object (`glDeleteShader`). -/
def Call.isDeleteShader : Call → Bool
  | Call.glDeleteShader _ => true
  | _ => false

/-- Calls that the `while` loop of lines 158-169 can issue, its condition
included. -/
def Call.isLoopCall : Call → Bool
  | Call.glfwWindowShouldClose _ => true
  | Call.glfwGetKey _ _ => true
  | Call.glfwSetWindowShouldClose _ _ => true
  | Call.glClearColor _ _ _ _ => true
  | Call.glClear _ => true
  | Call.glfwSwapBuffers _ => true
  | Call.glfwPollEvents => true
  | _ => false

/-- Calls of one pass through the loop in which Escape is not pressed: the
evaluation of the condition followed by lines 160-168. -/
def iterationCalls (window : Nat) : List Call :=
  [Call.glfwWindowShouldClose window,
   Call.glfwGetKey window Sym.GLFW_KEY_ESCAPE,
   Call.glClearColor 0.2 0.3 0.3 1.0,
   Call.glClear Sym.GL_COLOR_BUFFER_BIT,
   Call.glfwSwapBuffers window,
   Call.glfwPollEvents]

/-- Whether a close is requested at some point of the observed run: the flag is
set at the first check, or some frame reports Escape or a close event. -/
def closeRequested (d : Driver) : Bool :=
  d.shouldClose || d.frames.any (fun f => f.escapePressed || f.closeEvent)

/-- A frame with no key press and no close event. -/
def Frame.quiet (f : Frame) : Bool :=
  !f.escapePressed && !f.closeEvent

/-! ## Concrete drivers used in evaluations -/

/-- Shader info logs of the concrete drivers: the object named `failing` has
a one-line error log, every other object an empty log. -/
def sampleShaderLog (failing : Nat) (h : Nat) : String :=
  if h = failing then "0(5) : error C0000: syntax error" else ""

/-- Driver in which the vertex shader (handle 1) fails to compile and the
fragment shader (handle 2) compiles; linking succeeds.  Escape is pressed in
the first iteration. -/
def vertexFailsDriver : Driver where
  window := some 7
  VBO := 1
  vertexShader := 1
  fragmentShader := 2
  shaderProgram := 3
  compileStatus := fun h => h != 1
  shaderInfoLog := sampleShaderLog 1
  linkStatus := fun _ => true
  programInfoLog := fun _ => ""
  shouldClose := false
  frames := [⟨true, false⟩]

/-- Driver in which the fragment shader (handle 2) fails to compile and the
vertex shader (handle 1) compiles; linking fails.  One quiet iteration is
followed by one whose event poll delivers a close request. -/
def fragmentFailsDriver : Driver where
  window := some 7
  VBO := 1
  vertexShader := 1
  fragmentShader := 2
  shaderProgram := 3
  compileStatus := fun h => h != 2
  shaderInfoLog := sampleShaderLog 2
  linkStatus := fun _ => false
  programInfoLog := fun _ => "error: linking with uncompiled shader"
  shouldClose := false
  frames := [⟨false, false⟩, ⟨false, true⟩, ⟨false, false⟩]

/-! ## Lemmas on the loop -/

theorem renderLoop_true (w : Nat) (fs : List Frame) :
    renderLoop w true fs = (true, [Call.glfwWindowShouldClose w]) := by
  cases fs <;> rfl

theorem renderLoop_cons (w : Nat) (f : Frame) (fs : List Frame) :
    renderLoop w false (f :: fs) =
      ((renderLoop w (loopBody w false f).1 fs).1,
       Call.glfwWindowShouldClose w ::
         ((loopBody w false f).2 ++ (renderLoop w (loopBody w false f).1 fs).2)) := by
  rfl

theorem loopBody_quiet (w : Nat) (f : Frame) (hf : f.quiet = true) :
    loopBody w false f =
      (false, [Call.glfwGetKey w Sym.GLFW_KEY_ESCAPE,
               Call.glClearColor 0.2 0.3 0.3 1.0,
               Call.glClear Sym.GL_COLOR_BUFFER_BIT,
               Call.glfwSwapBuffers w,
               Call.glfwPollEvents]) := by
  obtain ⟨e, c⟩ := f
  cases e <;> cases c <;> simp_all [Frame.quiet, loopBody, processInput]

/-- Quiet iterations are executed one after the other and leave the flag
unset. -/
theorem renderLoop_quiet_append (w : Nat) (quiet rest : List Frame)
    (hq : ∀ g ∈ quiet, g.quiet = true) :
    renderLoop w false (quiet ++ rest) =
      ((renderLoop w false rest).1,
       (List.replicate quiet.length (iterationCalls w)).flatten ++
         (renderLoop w false rest).2) := by
  induction quiet with
  | nil => simp
  | cons g gs ih =>
    have hg : g.quiet = true := hq g (List.mem_cons_self _ _)
    have hgs : ∀ x ∈ gs, x.quiet = true := fun x hx => hq x (List.mem_cons_of_mem _ hx)
    rw [List.cons_append, renderLoop_cons, loopBody_quiet w g hg, ih hgs]
    simp [List.replicate_succ, iterationCalls]

/-- The loop issues loop calls only. -/
theorem renderLoop_isLoopCall (w : Nat) (fs : List Frame) (b : Bool) :
    ∀ c ∈ (renderLoop w b fs).2, c.isLoopCall = true := by
  induction fs generalizing b with
  | nil => cases b <;> simp [renderLoop, Call.isLoopCall]
  | cons f fs ih =>
    cases b with
    | true => simp [renderLoop_true, Call.isLoopCall]
    | false =>
      rw [renderLoop_cons]
      intro c hc
      simp only [List.mem_cons, List.mem_append] at hc
      rcases hc with rfl | hc | hc
      · rfl
      · obtain ⟨e, k⟩ := f
        cases e <;> simp [loopBody, processInput] at hc <;>
          casesm* _ ∨ _ <;> subst_vars <;> rfl
      · exact ih _ c hc

/-- The loop is left exactly when a close is requested in the observed
frames. -/
theorem renderLoop_left (w : Nat) (fs : List Frame) (b : Bool) :
    (renderLoop w b fs).1 = (b || fs.any (fun f => f.escapePressed || f.closeEvent)) := by
  induction fs generalizing b with
  | nil => cases b <;> rfl
  | cons f fs ih =>
    cases b with
    | true => simp [renderLoop_true]
    | false =>
      rw [renderLoop_cons]
      simp only [ih]
      obtain ⟨e, k⟩ := f
      cases e <;> cases k <;> simp [loopBody, processInput]

/-- Every pass through the loop starts with the evaluation of its
condition. -/
theorem renderLoop_head (w : Nat) (fs : List Frame) (b : Bool) :
    (renderLoop w b fs).2 =
      Call.glfwWindowShouldClose w :: (renderLoop w b fs).2.tail := by
  cases b with
  | true => simp [renderLoop_true]
  | false => cases fs <;> simp [renderLoop]

/-! ## Lemmas on `main` -/

theorem main_status (d : Driver) :
    (main d).status =
      if d.window = none then Status.exited (-1)
      else if closeRequested d = true then Status.exited 0 else Status.running := by
  unfold main closeRequested
  cases hw : d.window with
  | none => simp
  | some w =>
    simp only [renderLoop_left]
    split <;> simp_all

theorem main_trace (d : Driver) (w : Nat) (hw : d.window = some w) :
    (main d).trace =
      pipelineCalls d w ++ (renderLoop w d.shouldClose d.frames).2 ++
        (if closeRequested d = true then
          [Call.glfwDestroyWindow w, Call.glfwTerminate] else []) := by
  unfold main closeRequested
  simp only [hw, renderLoop_left]
  split <;> simp_all

theorem main_out (d : Driver) (w : Nat) (hw : d.window = some w) :
    (main d).out = pipelineOut d := by
  unfold main
  simp only [hw]
  split <;> rfl

theorem linkStep_calls (d : Driver) :
    (linkStep d).1 =
      [Call.glCreateProgram,
       Call.glAttachShader d.shaderProgram d.vertexShader,
       Call.glAttachShader d.shaderProgram d.fragmentShader,
       Call.glLinkProgram d.shaderProgram] ++
      (Call.glGetProramriv d.shaderProgram Sym.GL_LINK_STATUS ::
        if d.linkStatus d.shaderProgram = true then []
        else [Call.glGetProgramInfoLog d.shaderProgram 512]) := by
  unfold linkStep
  cases d.linkStatus d.shaderProgram <;> simp

/-- Nothing before the loop is a loop call. -/
theorem pipelineCalls_not_loop (d : Driver) (w : Nat) :
    ∀ c ∈ pipelineCalls d w, c.isLoopCall = false := by
  intro c
  simp only [pipelineCalls, initCalls, setupCalls, vertexCompileCheck, fragmentCompileCheck, linkStep]
  cases d.compileStatus d.vertexShader <;> cases d.compileStatus d.fragmentShader <;>
    cases d.linkStatus d.shaderProgram <;> simp <;> intro hc <;>
    casesm* _ ∨ _ <;> subst_vars <;> rfl

/-- Nothing before the loop releases a shader object. -/
theorem pipelineCalls_not_delete (d : Driver) (w : Nat) :
    ∀ c ∈ pipelineCalls d w, c.isDeleteShader = false := by
  intro c
  simp only [pipelineCalls, initCalls, setupCalls, vertexCompileCheck, fragmentCompileCheck, linkStep]
  cases d.compileStatus d.vertexShader <;> cases d.compileStatus d.fragmentShader <;>
    cases d.linkStatus d.shaderProgram <;> simp <;> intro hc <;>
    casesm* _ ∨ _ <;> subst_vars <;> rfl

theorem filter_eq_nil_of_loop (p : Call → Bool) (l : List Call)
    (hp : ∀ c, p c = true → c.isLoopCall = false)
    (hl : ∀ c ∈ l, c.isLoopCall = true) : l.filter p = [] := by
  rw [List.filter_eq_nil_iff]
  intro c hc hpc
  have h1 := hl c hc
  have h2 := hp c hpc
  simp [h1] at h2

theorem filter_eq_nil_of_not_loop (p : Call → Bool) (l : List Call)
    (hp : ∀ c, p c = true → c.isLoopCall = true)
    (hl : ∀ c ∈ l, c.isLoopCall = false) : l.filter p = [] := by
  rw [List.filter_eq_nil_iff]
  intro c hc hpc
  have h1 := hl c hc
  have h2 := hp c hpc
  simp [h1] at h2

theorem isClear_isLoopCall (c : Call) (h : c.isClear = true) : c.isLoopCall = true := by
  cases c <;> simp_all [Call.isClear, Call.isLoopCall]

theorem isSwap_isLoopCall (c : Call) (h : c.isSwap = true) : c.isLoopCall = true := by
  cases c <;> simp_all [Call.isSwap, Call.isLoopCall]

theorem isGenBuffers_not_loop (c : Call) (h : c.isGenBuffers = true) :
    c.isLoopCall = false := by
  cases c <;> simp_all [Call.isGenBuffers, Call.isLoopCall]

theorem isBufferData_not_loop (c : Call) (h : c.isBufferData = true) :
    c.isLoopCall = false := by
  cases c <;> simp_all [Call.isBufferData, Call.isLoopCall]

theorem isCreateProgram_not_loop (c : Call) (h : c.isCreateProgram = true) :
    c.isLoopCall = false := by
  cases c <;> simp_all [Call.isCreateProgram, Call.isLoopCall]

theorem isDeleteShader_not_loop (c : Call) (h : c.isDeleteShader = true) :
    c.isLoopCall = false := by
  cases c <;> simp_all [Call.isDeleteShader, Call.isLoopCall]

theorem filter_isClear_iterations (w n : Nat) :
    ((List.replicate n (iterationCalls w)).flatten.filter Call.isClear).length = n := by
  induction n with
  | zero => simp
  | succ n ih =>
    simp only [List.replicate_succ, List.flatten_cons, List.filter_append,
      List.length_append, ih]
    simp [iterationCalls, Call.isClear, List.filter]
    omega

theorem filter_isSwap_iterations (w n : Nat) :
    ((List.replicate n (iterationCalls w)).flatten.filter Call.isSwap).length = n := by
  induction n with
  | zero => simp
  | succ n ih =>
    simp only [List.replicate_succ, List.flatten_cons, List.filter_append,
      List.length_append, ih]
    simp [iterationCalls, Call.isSwap, List.filter]
    omega

/-- The loop when Escape is pressed in the first iteration that is not
quiet. -/
theorem renderLoop_escape (w : Nat) (quiet rest : List Frame) (f : Frame)
    (hq : ∀ g ∈ quiet, g.quiet = true) (hesc : f.escapePressed = true) :
    renderLoop w false (quiet ++ f :: rest) =
      (true,
       (List.replicate quiet.length (iterationCalls w)).flatten ++
         [Call.glfwWindowShouldClose w,
          Call.glfwGetKey w Sym.GLFW_KEY_ESCAPE,
          Call.glfwSetWindowShouldClose w true,
          Call.glClearColor 0.2 0.3 0.3 1.0,
          Call.glClear Sym.GL_COLOR_BUFFER_BIT,
          Call.glfwSwapBuffers w,
          Call.glfwPollEvents,
          Call.glfwWindowShouldClose w]) := by
  rw [renderLoop_quiet_append w quiet _ hq, renderLoop_cons]
  have hb : loopBody w false f =
      (true, [Call.glfwGetKey w Sym.GLFW_KEY_ESCAPE,
              Call.glfwSetWindowShouldClose w true,
              Call.glClearColor 0.2 0.3 0.3 1.0,
              Call.glClear Sym.GL_COLOR_BUFFER_BIT,
              Call.glfwSwapBuffers w,
              Call.glfwPollEvents]) := by
    simp [loopBody, processInput, hesc]
  rw [hb, renderLoop_true]
  rfl

/-- The loop when the event poll of the first iteration that is not quiet
delivers a close request and no key is pressed. -/
theorem renderLoop_closeEvent (w : Nat) (quiet rest : List Frame) (f : Frame)
    (hq : ∀ g ∈ quiet, g.quiet = true) (hesc : f.escapePressed = false)
    (hev : f.closeEvent = true) :
    renderLoop w false (quiet ++ f :: rest) =
      (true,
       (List.replicate (quiet.length + 1) (iterationCalls w)).flatten ++
         [Call.glfwWindowShouldClose w]) := by
  rw [renderLoop_quiet_append w quiet _ hq, renderLoop_cons]
  have hb : loopBody w false f =
      (true, [Call.glfwGetKey w Sym.GLFW_KEY_ESCAPE,
              Call.glClearColor 0.2 0.3 0.3 1.0,
              Call.glClear Sym.GL_COLOR_BUFFER_BIT,
              Call.glfwSwapBuffers w,
              Call.glfwPollEvents]) := by
    simp [loopBody, processInput, hesc, hev]
  rw [hb, renderLoop_true]
  simp [List.replicate_succ', iterationCalls]

/-! ## Theorems for the claims -/

/-- C3: compile and link failures are not fatal.  Whenever the window was
created, whatever the compile and link statuses are, the trace contains the
creation of the program object, the attachment of both shaders and the link
call, in this order, followed later by the first evaluation of the loop
condition; and the run ends with exit code 0 exactly when a close is requested
in the observed frames (otherwise it is still in the loop), independently of
the three statuses. -/
theorem compile_link_failures_nonfatal (d : Driver) (w : Nat)
    (hw : d.window = some w) :
    (∃ a b c, (main d).trace =
        a ++ [Call.glCreateProgram,
              Call.glAttachShader d.shaderProgram d.vertexShader,
              Call.glAttachShader d.shaderProgram d.fragmentShader,
              Call.glLinkProgram d.shaderProgram] ++ b ++
          Call.glfwWindowShouldClose w :: c) ∧
    (main d).status =
      (if closeRequested d = true then Status.exited 0 else Status.running) := by
  constructor
  · refine ⟨initCalls ++ setupCalls d w ++ (vertexCompileCheck d).1 ++
        (fragmentCompileCheck d).1,
      Call.glGetProramriv d.shaderProgram Sym.GL_LINK_STATUS ::
        (if d.linkStatus d.shaderProgram = true then []
         else [Call.glGetProgramInfoLog d.shaderProgram 512]),
      (renderLoop w d.shouldClose d.frames).2.tail ++
        (if closeRequested d = true then
          [Call.glfwDestroyWindow w, Call.glfwTerminate] else []), ?_⟩
    rw [main_trace d w hw, renderLoop_head, pipelineCalls, linkStep_calls]
    simp
  · rw [main_status]
    simp [hw]

/-- Witness of C3: vertex compile failure, Escape in the first iteration. -/
theorem compile_link_failures_nonfatal_witness :
    vertexFailsDriver.window = some 7 ∧
    (∃ a b c, (main vertexFailsDriver).trace =
        a ++ [Call.glCreateProgram,
              Call.glAttachShader 3 1,
              Call.glAttachShader 3 2,
              Call.glLinkProgram 3] ++ b ++
          Call.glfwWindowShouldClose 7 :: c) ∧
    (main vertexFailsDriver).status = Status.exited 0 :=
  ⟨rfl, compile_link_failures_nonfatal vertexFailsDriver 7 rfl⟩

/-- C4: the status of a run is `exited (-1)` exactly when window creation
fails, and otherwise `exited 0` as soon as the run terminates; when window
creation fails the run consists of the initialisation, the three hints, the
failed `glfwCreateWindow` and `glfwTerminate`, and it prints the one message
`Failed to create GLFW window`. -/
theorem exit_code_window_creation (d : Driver) :
    ((main d).status = Status.exited (-1) ↔ d.window = none) ∧
    (main d).status =
      (if d.window = none then Status.exited (-1)
       else if closeRequested d = true then Status.exited 0 else Status.running) ∧
    main { d with window := none } =
      ⟨Status.exited (-1),
       [Call.glfwInit,
        Call.glfwWindowHint Sym.GLFW_CONTEXT_VERSION_MAJOR (HintValue.int 3),
        Call.glfwWindowHint Sym.GLFW_CONTEXT_VERSION_MINOR (HintValue.int 3),
        Call.glfwWindowHint Sym.GLFW_OPENGL_PROFILE
          (HintValue.sym Sym.GLFW_OPENGL_CORE_PROFILE),
        Call.glfwCreateWindow 800 800 "YoutubeOpenGL",
        Call.glfwTerminate],
       [⟨"Failed to create GLFW window", ""⟩]⟩ := by
  refine ⟨?_, main_status d, rfl⟩
  rw [main_status]
  by_cases hw : d.window = none
  · simp [hw]
  · simp only [hw, if_false, iff_false]
    split <;> simp

/-- C5: an iteration that starts with the close flag unset and in which Escape
is not pressed issues exactly the input poll, `glClearColor(0.2, 0.3, 0.3,
1.0)`, `glClear(GL_COLOR_BUFFER_BIT)`, `glfwSwapBuffers` and `glfwPollEvents`,
in this order; the flag after the iteration is what the event poll reported,
and the loop goes on from that flag. -/
theorem iteration_without_escape (w : Nat) (f : Frame) (fs : List Frame)
    (hesc : f.escapePressed = false) :
    loopBody w false f =
      (f.closeEvent,
       [Call.glfwGetKey w Sym.GLFW_KEY_ESCAPE,
        Call.glClearColor 0.2 0.3 0.3 1.0,
        Call.glClear Sym.GL_COLOR_BUFFER_BIT,
        Call.glfwSwapBuffers w,
        Call.glfwPollEvents]) ∧
    renderLoop w false (f :: fs) =
      ((renderLoop w f.closeEvent fs).1,
       [Call.glfwWindowShouldClose w,
        Call.glfwGetKey w Sym.GLFW_KEY_ESCAPE,
        Call.glClearColor 0.2 0.3 0.3 1.0,
        Call.glClear Sym.GL_COLOR_BUFFER_BIT,
        Call.glfwSwapBuffers w,
        Call.glfwPollEvents] ++ (renderLoop w f.closeEvent fs).2) := by
  have hb : loopBody w false f =
      (f.closeEvent,
       [Call.glfwGetKey w Sym.GLFW_KEY_ESCAPE,
        Call.glClearColor 0.2 0.3 0.3 1.0,
        Call.glClear Sym.GL_COLOR_BUFFER_BIT,
        Call.glfwSwapBuffers w,
        Call.glfwPollEvents]) := by
    simp [loopBody, processInput, hesc]
  refine ⟨hb, ?_⟩
  rw [renderLoop_cons, hb]
  rfl

/-- Witness of C5: one quiet iteration followed by the end of the observed
frames; the loop is still running. -/
theorem iteration_without_escape_witness :
    (⟨false, false⟩ : Frame).escapePressed = false ∧
    loopBody 7 false ⟨false, false⟩ =
      (false,
       [Call.glfwGetKey 7 Sym.GLFW_KEY_ESCAPE,
        Call.glClearColor 0.2 0.3 0.3 1.0,
        Call.glClear Sym.GL_COLOR_BUFFER_BIT,
        Call.glfwSwapBuffers 7,
        Call.glfwPollEvents]) ∧
    renderLoop 7 false [⟨false, false⟩] =
      (false,
       [Call.glfwWindowShouldClose 7,
        Call.glfwGetKey 7 Sym.GLFW_KEY_ESCAPE,
        Call.glClearColor 0.2 0.3 0.3 1.0,
        Call.glClear Sym.GL_COLOR_BUFFER_BIT,
        Call.glfwSwapBuffers 7,
        Call.glfwPollEvents,
        Call.glfwWindowShouldClose 7]) :=
  ⟨rfl, iteration_without_escape 7 ⟨false, false⟩ [] rfl⟩

/-- C1, evaluated where the claim fails: the vertex shader (handle 1) fails to
compile with a non-empty log and the fragment shader (handle 2) compiles with
an empty log.  The one message printed carries the fragment shader's log (the
empty text), not the log that `glGetShaderInfoLog` gives for the vertex
handle. -/
theorem vertex_failure_reports_fragment_log :
    vertexFailsDriver.compileStatus vertexFailsDriver.vertexShader = false ∧
    vertexFailsDriver.compileStatus vertexFailsDriver.fragmentShader = true ∧
    glGetShaderInfoLog vertexFailsDriver vertexFailsDriver.vertexShader 512 =
      "0(5) : error C0000: syntax error" ∧
    glGetShaderInfoLog vertexFailsDriver vertexFailsDriver.fragmentShader 512 = "" ∧
    (main vertexFailsDriver).out =
      [⟨"ERROR::SHADER::VERTEX::COMPILATION_FAILED\n", ""⟩] := by
  decide

/-- C2, evaluated where the claim fails: the vertex shader compiles and the
fragment shader fails to compile.  The message printed for the failed fragment
check has the label of the vertex stage. -/
theorem fragment_failure_reported_as_vertex :
    fragmentFailsDriver.compileStatus fragmentFailsDriver.vertexShader = true ∧
    fragmentFailsDriver.compileStatus fragmentFailsDriver.fragmentShader = false ∧
    (main fragmentFailsDriver).out =
      [⟨"ERROR::SHADER::VERTEX::COMPILATION_FAILED\n",
        "0(5) : error C0000: syntax error"⟩,
       ⟨"ERROR::SHADER::PROGRAM::LINKING_FAILED\n",
        "error: linking with uncompiled shader"⟩] := by
  decide

/-- C6 as stated fails: in the run of `vertexFailsDriver` Escape is pressed in
the first iteration, and a `glClear` is issued after the call that records the
press (`glfwSetWindowShouldClose`). -/
theorem clear_after_escape_detected :
    ∃ before after,
      (main vertexFailsDriver).trace =
        before ++ Call.glfwSetWindowShouldClose 7 true :: after ∧
      Call.glClear Sym.GL_COLOR_BUFFER_BIT ∈ after := by
  refine ⟨(main vertexFailsDriver).trace.take 28,
    (main vertexFailsDriver).trace.drop 29, ?_, ?_⟩
  · rfl
  · decide

/-- C6, amended: when Escape is reported pressed in an iteration of the loop
(all earlier iterations being quiet), the program sets the close flag, finishes
that iteration with one clear, one present and one event poll, leaves the loop
at the next evaluation of the condition, destroys the window, terminates the
provider and returns 0.  No clear follows that iteration. -/
theorem escape_terminates_after_iteration (d : Driver) (w : Nat)
    (quiet rest : List Frame) (f : Frame)
    (hw : d.window = some w) (h0 : d.shouldClose = false)
    (hfr : d.frames = quiet ++ f :: rest)
    (hq : ∀ g ∈ quiet, g.quiet = true) (hesc : f.escapePressed = true) :
    (main d).status = Status.exited 0 ∧
    (main d).trace =
      pipelineCalls d w ++ (List.replicate quiet.length (iterationCalls w)).flatten ++
        [Call.glfwWindowShouldClose w,
         Call.glfwGetKey w Sym.GLFW_KEY_ESCAPE,
         Call.glfwSetWindowShouldClose w true,
         Call.glClearColor 0.2 0.3 0.3 1.0,
         Call.glClear Sym.GL_COLOR_BUFFER_BIT,
         Call.glfwSwapBuffers w,
         Call.glfwPollEvents,
         Call.glfwWindowShouldClose w,
         Call.glfwDestroyWindow w,
         Call.glfwTerminate] := by
  have hc : closeRequested d = true := by
    simp [closeRequested, hfr, hesc]
  constructor
  · rw [main_status]; simp [hw, hc]
  · rw [main_trace d w hw, h0, hfr, renderLoop_escape w quiet rest f hq hesc]
    simp [hc]

/-- Witness of the amended C6: Escape in the first iteration. -/
theorem escape_terminates_after_iteration_witness :
    vertexFailsDriver.window = some 7 ∧
    vertexFailsDriver.shouldClose = false ∧
    vertexFailsDriver.frames = [] ++ (⟨true, false⟩ : Frame) :: [] ∧
    (∀ g ∈ ([] : List Frame), g.quiet = true) ∧
    (⟨true, false⟩ : Frame).escapePressed = true ∧
    (main vertexFailsDriver).status = Status.exited 0 ∧
    (main vertexFailsDriver).trace =
      pipelineCalls vertexFailsDriver 7 ++
        (List.replicate ([] : List Frame).length (iterationCalls 7)).flatten ++
        [Call.glfwWindowShouldClose 7,
         Call.glfwGetKey 7 Sym.GLFW_KEY_ESCAPE,
         Call.glfwSetWindowShouldClose 7 true,
         Call.glClearColor 0.2 0.3 0.3 1.0,
         Call.glClear Sym.GL_COLOR_BUFFER_BIT,
         Call.glfwSwapBuffers 7,
         Call.glfwPollEvents,
         Call.glfwWindowShouldClose 7,
         Call.glfwDestroyWindow 7,
         Call.glfwTerminate] :=
  ⟨rfl, rfl, rfl, by simp, rfl,
   escape_terminates_after_iteration vertexFailsDriver 7 [] [] ⟨true, false⟩
     rfl rfl rfl (by simp) rfl⟩

/-- C7: when the loop condition finds the close flag set without any key
press, either at the very first check or after the event poll of an iteration
delivered a close request (all earlier iterations being quiet), nothing follows
that check but `glfwDestroyWindow` and `glfwTerminate`, and `main` returns 0.
The iterations executed before it are `iters`; the frames in `rest` are never
consumed.  The numbers of clears and of presents in the whole run equal the
number of executed iterations, so both are zero when the flag is set at the
first check. -/
theorem os_close_terminates (d : Driver) (w : Nat) (iters rest : List Frame)
    (hw : d.window = some w) (hfr : d.frames = iters ++ rest)
    (hclose : (d.shouldClose = true ∧ iters = []) ∨
      (d.shouldClose = false ∧ ∃ quiet f, iters = quiet ++ [f] ∧
        (∀ g ∈ quiet, g.quiet = true) ∧ f.escapePressed = false ∧
        f.closeEvent = true)) :
    (main d).status = Status.exited 0 ∧
    (main d).trace =
      pipelineCalls d w ++ (List.replicate iters.length (iterationCalls w)).flatten ++
        [Call.glfwWindowShouldClose w,
         Call.glfwDestroyWindow w,
         Call.glfwTerminate] ∧
    ((main d).trace.filter Call.isClear).length = iters.length ∧
    ((main d).trace.filter Call.isSwap).length = iters.length := by
  have hc : closeRequested d = true := by
    rcases hclose with ⟨h, _⟩ | ⟨_, q, f, hi, _, _, hev⟩
    · simp [closeRequested, h]
    · simp [closeRequested, hfr, hi, hev]
  have ht : (main d).trace =
      pipelineCalls d w ++ (List.replicate iters.length (iterationCalls w)).flatten ++
        [Call.glfwWindowShouldClose w,
         Call.glfwDestroyWindow w,
         Call.glfwTerminate] := by
    rw [main_trace d w hw]
    rcases hclose with ⟨h, hi⟩ | ⟨h, q, f, hi, hq, hesc, hev⟩
    · rw [h, renderLoop_true, hi]
      simp [hc]
    · have hl : q ++ [f] ++ rest = q ++ f :: rest := by simp
      rw [h, hfr, hi, hl, renderLoop_closeEvent w q rest f hq hesc hev]
      simp [hc]
  refine ⟨?_, ht, ?_, ?_⟩
  · rw [main_status]; simp [hw, hc]
  · rw [ht, List.filter_append, List.filter_append,
      filter_eq_nil_of_not_loop _ _ isClear_isLoopCall (pipelineCalls_not_loop d w),
      List.length_append, List.length_append, filter_isClear_iterations]
    simp [Call.isClear, List.filter]
  · rw [ht, List.filter_append, List.filter_append,
      filter_eq_nil_of_not_loop _ _ isSwap_isLoopCall (pipelineCalls_not_loop d w),
      List.length_append, List.length_append, filter_isSwap_iterations]
    simp [Call.isSwap, List.filter]

/-- Witness of C7: one quiet iteration, then an iteration whose event poll
delivers a close request; a third frame is never consumed. -/
theorem os_close_terminates_witness :
    fragmentFailsDriver.window = some 7 ∧
    fragmentFailsDriver.frames =
      [⟨false, false⟩, ⟨false, true⟩] ++ [⟨false, false⟩] ∧
    (main fragmentFailsDriver).status = Status.exited 0 ∧
    (main fragmentFailsDriver).trace =
      pipelineCalls fragmentFailsDriver 7 ++
        (List.replicate ([⟨false, false⟩, ⟨false, true⟩] : List Frame).length
          (iterationCalls 7)).flatten ++
        [Call.glfwWindowShouldClose 7,
         Call.glfwDestroyWindow 7,
         Call.glfwTerminate] ∧
    ((main fragmentFailsDriver).trace.filter Call.isClear).length =
      ([⟨false, false⟩, ⟨false, true⟩] : List Frame).length ∧
    ((main fragmentFailsDriver).trace.filter Call.isSwap).length =
      ([⟨false, false⟩, ⟨false, true⟩] : List Frame).length :=
  ⟨rfl, rfl,
   os_close_terminates fragmentFailsDriver 7
     [⟨false, false⟩, ⟨false, true⟩] [⟨false, false⟩] rfl rfl
     (Or.inr ⟨rfl, [⟨false, false⟩], ⟨false, true⟩, rfl, by decide, rfl, rfl⟩)⟩

/-- C8 as stated fails: in the run of `fragmentFailsDriver` (link failure) no
`glDeleteShader` is issued for the vertex shader (handle 1) nor for the
fragment shader (handle 2), although the run reaches `glLinkProgram`, enters
the loop and returns. -/
theorem shaders_not_deleted_example :
    Call.glLinkProgram 3 ∈ (main fragmentFailsDriver).trace ∧
    (main fragmentFailsDriver).status = Status.exited 0 ∧
    Call.glDeleteShader 1 ∉ (main fragmentFailsDriver).trace ∧
    Call.glDeleteShader 2 ∉ (main fragmentFailsDriver).trace := by
  decide

/-- C8, amended: for every driver outcome, whether linking succeeds or fails,
the program releases neither shader object: its call trace contains no
`glDeleteShader` at all. -/
theorem shaders_never_deleted (d : Driver) (shader : Nat) :
    Call.glDeleteShader shader ∉ (main d).trace := by
  intro hmem
  have hall : ∀ c ∈ (main d).trace, c.isDeleteShader = false := by
    cases hw : d.window with
    | none =>
      intro c hc
      have hm : main d = ⟨Status.exited (-1), initCalls ++ [Call.glfwTerminate],
          [⟨windowFailedMessage, ""⟩]⟩ := by
        unfold main; simp only [hw]
      rw [hm] at hc
      simp [initCalls] at hc
      casesm* _ ∨ _ <;> subst_vars <;> rfl
    | some w =>
      intro c hc
      rw [main_trace d w hw] at hc
      simp only [List.mem_append] at hc
      rcases hc with (hc | hc) | hc
      · exact pipelineCalls_not_delete d w c hc
      · have h1 := renderLoop_isLoopCall w d.frames d.shouldClose c hc
        cases hdel : c.isDeleteShader with
        | false => rfl
        | true =>
          have h2 := isDeleteShader_not_loop c hdel
          simp [h1] at h2
      · split at hc
        · simp at hc
          rcases hc with rfl | rfl <;> rfl
        · simp at hc
  have := hall _ hmem
  simp [Call.isDeleteShader] at this

/-- C9: in every run that gets past window creation the trace holds exactly
one `glGenBuffers`, exactly one `glBufferData` and exactly one
`glCreateProgram`, all of them before the first evaluation of the loop
condition.  The one upload goes to `GL_ARRAY_BUFFER` with `GL_STATIC_DRAW`,
has byte size 36 and carries the 9 floats of the three vertices
(-0.5, -0.5, 0), (0.5, -0.5, 0), (0, 0.5, 0). -/
theorem single_buffer_upload_and_program (d : Driver) (w : Nat)
    (hw : d.window = some w) :
    (main d).trace.filter Call.isGenBuffers = [Call.glGenBuffers 1] ∧
    (main d).trace.filter Call.isBufferData =
      [Call.glBufferData Sym.GL_ARRAY_BUFFER 36
        [-0.5, -0.5, 0, 0.5, -0.5, 0, 0, 0.5, 0] Sym.GL_STATIC_DRAW] ∧
    (main d).trace.filter Call.isCreateProgram = [Call.glCreateProgram] ∧
    (∃ rest, (main d).trace =
        pipelineCalls d w ++ Call.glfwWindowShouldClose w :: rest ∧
      (pipelineCalls d w).filter Call.isGenBuffers = [Call.glGenBuffers 1] ∧
      (pipelineCalls d w).filter Call.isBufferData =
        [Call.glBufferData Sym.GL_ARRAY_BUFFER 36
          [-0.5, -0.5, 0, 0.5, -0.5, 0, 0, 0.5, 0] Sym.GL_STATIC_DRAW] ∧
      (pipelineCalls d w).filter Call.isCreateProgram = [Call.glCreateProgram] ∧
      ∀ c ∈ pipelineCalls d w, c.isLoopCall = false) ∧
    vertices.length = 3 * 3 ∧ sizeofFloats vertices = 9 * 4 := by
  have hv : vertices = [-0.5, -0.5, 0, 0.5, -0.5, 0, 0, 0.5, 0] := by
    norm_num [vertices]
  have hp1 : (pipelineCalls d w).filter Call.isGenBuffers = [Call.glGenBuffers 1] := by
    simp only [pipelineCalls, initCalls, setupCalls, vertexCompileCheck, fragmentCompileCheck, linkStep]
    cases d.compileStatus d.vertexShader <;> cases d.compileStatus d.fragmentShader <;>
      cases d.linkStatus d.shaderProgram <;> simp [Call.isGenBuffers, List.filter]
  have hp2 : (pipelineCalls d w).filter Call.isBufferData =
      [Call.glBufferData Sym.GL_ARRAY_BUFFER 36
        [-0.5, -0.5, 0, 0.5, -0.5, 0, 0, 0.5, 0] Sym.GL_STATIC_DRAW] := by
    rw [← hv]
    simp only [pipelineCalls, initCalls, setupCalls, vertexCompileCheck, fragmentCompileCheck, linkStep]
    cases d.compileStatus d.vertexShader <;> cases d.compileStatus d.fragmentShader <;>
      cases d.linkStatus d.shaderProgram <;>
      simp [Call.isBufferData, List.filter, sizeofFloats, sizeofFloat, vertices]
  have hp3 : (pipelineCalls d w).filter Call.isCreateProgram = [Call.glCreateProgram] := by
    simp only [pipelineCalls, initCalls, setupCalls, vertexCompileCheck, fragmentCompileCheck, linkStep]
    cases d.compileStatus d.vertexShader <;> cases d.compileStatus d.fragmentShader <;>
      cases d.linkStatus d.shaderProgram <;> simp [Call.isCreateProgram, List.filter]
  have hloop := renderLoop_isLoopCall w d.frames d.shouldClose
  have htail : ∀ (p : Call → Bool), (∀ c, p c = true → c.isLoopCall = false) →
      (∀ x, p (Call.glfwDestroyWindow x) = false) → p Call.glfwTerminate = false →
      (main d).trace.filter p = (pipelineCalls d w).filter p := by
    intro p hp hd ht
    rw [main_trace d w hw, List.filter_append, List.filter_append,
      filter_eq_nil_of_loop p _ hp hloop]
    split <;> simp [List.filter, hd, ht]
  refine ⟨?_, ?_, ?_, ⟨?_, ?_, hp1, hp2, hp3, pipelineCalls_not_loop d w⟩, ?_, ?_⟩
  · rw [htail _ isGenBuffers_not_loop (fun _ => rfl) rfl, hp1]
  · rw [htail _ isBufferData_not_loop (fun _ => rfl) rfl, hp2]
  · rw [htail _ isCreateProgram_not_loop (fun _ => rfl) rfl, hp3]
  · exact (renderLoop w d.shouldClose d.frames).2.tail ++
      (if closeRequested d = true then
        [Call.glfwDestroyWindow w, Call.glfwTerminate] else [])
  · rw [main_trace d w hw, renderLoop_head]
    simp
  · rfl
  · rfl

/-- Witness of C9: the run of `vertexFailsDriver`. -/
theorem single_buffer_upload_and_program_witness :
    vertexFailsDriver.window = some 7 ∧
    (main vertexFailsDriver).trace.filter Call.isGenBuffers = [Call.glGenBuffers 1] ∧
    (main vertexFailsDriver).trace.filter Call.isBufferData =
      [Call.glBufferData Sym.GL_ARRAY_BUFFER 36
        [-0.5, -0.5, 0, 0.5, -0.5, 0, 0, 0.5, 0] Sym.GL_STATIC_DRAW] ∧
    (main vertexFailsDriver).trace.filter Call.isCreateProgram =
      [Call.glCreateProgram] :=
  ⟨rfl,
   (single_buffer_upload_and_program vertexFailsDriver 7 rfl).1,
   (single_buffer_upload_and_program vertexFailsDriver 7 rfl).2.1,
   (single_buffer_upload_and_program vertexFailsDriver 7 rfl).2.2.1⟩

/-- C10: when the window was created, the output consists of one message per
failed check, in the order vertex compile check, fragment compile check, link
check; each message is a fixed label followed by a log text fetched from the
driver; which messages appear depends on the three statuses only, and the link
message depends on the link status only.  The output is empty exactly when all
three statuses are success. -/
theorem diagnostics_per_failed_check (d : Driver) (w : Nat)
    (hw : d.window = some w) :
    (main d).out =
      (if d.compileStatus d.vertexShader = true then []
       else [⟨"ERROR::SHADER::VERTEX::COMPILATION_FAILED\n",
              glGetShaderInfoLog d d.fragmentShader 512⟩]) ++
      (if d.compileStatus d.fragmentShader = true then []
       else [⟨"ERROR::SHADER::VERTEX::COMPILATION_FAILED\n",
              glGetShaderInfoLog d d.fragmentShader 512⟩]) ++
      (if d.linkStatus d.shaderProgram = true then []
       else [⟨"ERROR::SHADER::PROGRAM::LINKING_FAILED\n",
              glGetProgramInfoLog d d.shaderProgram 512⟩]) ∧
    ((main d).out = [] ↔
      (d.compileStatus d.vertexShader = true ∧
       d.compileStatus d.fragmentShader = true ∧
       d.linkStatus d.shaderProgram = true)) ∧
    (main d).out.length =
      (if d.compileStatus d.vertexShader = true then 0 else 1) +
      (if d.compileStatus d.fragmentShader = true then 0 else 1) +
      (if d.linkStatus d.shaderProgram = true then 0 else 1) := by
  rw [main_out d w hw]
  simp only [pipelineOut, vertexCompileCheck, fragmentCompileCheck, linkStep, writeBuffer, vertexCompileLabel,
    linkLabel]
  cases d.compileStatus d.vertexShader <;> cases d.compileStatus d.fragmentShader <;>
    cases d.linkStatus d.shaderProgram <;> simp

/-- Witness of C10: fragment compile failure and link failure give two
messages, in this order. -/
theorem diagnostics_per_failed_check_witness :
    fragmentFailsDriver.window = some 7 ∧
    (main fragmentFailsDriver).out =
      (if fragmentFailsDriver.compileStatus fragmentFailsDriver.vertexShader = true
       then []
       else [⟨"ERROR::SHADER::VERTEX::COMPILATION_FAILED\n",
              glGetShaderInfoLog fragmentFailsDriver
                fragmentFailsDriver.fragmentShader 512⟩]) ++
      (if fragmentFailsDriver.compileStatus fragmentFailsDriver.fragmentShader = true
       then []
       else [⟨"ERROR::SHADER::VERTEX::COMPILATION_FAILED\n",
              glGetShaderInfoLog fragmentFailsDriver
                fragmentFailsDriver.fragmentShader 512⟩]) ++
      (if fragmentFailsDriver.linkStatus fragmentFailsDriver.shaderProgram = true
       then []
       else [⟨"ERROR::SHADER::PROGRAM::LINKING_FAILED\n",
              glGetProgramInfoLog fragmentFailsDriver
                fragmentFailsDriver.shaderProgram 512⟩]) :=
  ⟨rfl, (diagnostics_per_failed_check fragmentFailsDriver 7 rfl).1⟩

end OpenGL
